import Mathlib

/-!
Verification of the scroll-synchronized camera walkthrough in `src/src/App.tsx`
(Siriz interiors site).

The embedding models:
* the literal configuration tables `ROOM_NAMES` and `CAMERA_PATH`;
* the GSAP timeline built in the `CAMERA_PATH.forEach` loop (one linear-ease
  tween per consecutive keyframe pair, placed at `prev.scroll` with duration
  `point.scroll - prev.scroll`) together with the ScrollTrigger `scrub`
  semantics that evaluates this timeline at a playhead clamped to [0,1] —
  this yields the piecewise-linear `interpolate` function below;
* the `onUpdate` room-label threshold selection;
* the `handleResize` handler;
* the scene builder (`createRoom`, `createBox`, `createLamp` and the
  apartment assembly).

Real numbers of the source are modelled by `ℚ`; all the literals appearing in
the source (1.6, 0.15, …) are exact rationals.  Angles are recorded in units
of π (the source only ever uses multiples of π/2).
-/

/-- A 3-component vector, as used for `position` and `lookAt` values. -/
structure Vec3 where
  x : ℚ
  y : ℚ
  z : ℚ
deriving DecidableEq, Inhabited

/-- One entry of `CAMERA_PATH`: `{ pos, look, scroll }`. -/
structure Keyframe where
  pos : Vec3
  look : Vec3
  scroll : ℚ
deriving DecidableEq, Inhabited

/-- A camera pose: interpolated position plus look-at target. -/
structure Pose where
  position : Vec3
  lookAt : Vec3
deriving DecidableEq, Inhabited

/-- The literal `const ROOM_NAMES = [...]` (App.tsx line 10). -/
def ROOM_NAMES : List String :=
  ["The Grand Foyer", "The Living Room", "The Master Suite",
   "The Modular Kitchen", "The Private Study"]

/-- The literal `const CAMERA_PATH = [...]` (App.tsx lines 12–23). -/
def CAMERA_PATH : List Keyframe :=
  [⟨⟨0, 1.6, 12⟩, ⟨0, 1.6, 0⟩, 0⟩,
   ⟨⟨0, 1.6, 6⟩, ⟨0, 1.6, 0⟩, 0.15⟩,
   ⟨⟨0, 1.6, 0⟩, ⟨-4, 1.6, -2⟩, 0.25⟩,
   ⟨⟨-4, 1.6, -2⟩, ⟨-8, 1.6, -2⟩, 0.35⟩,
   ⟨⟨-8, 1.6, -2⟩, ⟨-8, 1.6, -8⟩, 0.45⟩,
   ⟨⟨-8, 1.6, -8⟩, ⟨-4, 1.6, -10⟩, 0.55⟩,
   ⟨⟨-4, 1.6, -10⟩, ⟨-4, 1.6, -14⟩, 0.65⟩,
   ⟨⟨-4, 1.6, -14⟩, ⟨-4, 1.6, -18⟩, 0.75⟩,
   ⟨⟨-4, 1.6, -18⟩, ⟨-4, 1.6, -22⟩, 0.85⟩,
   ⟨⟨-4, 1.6, -22⟩, ⟨0, 1.6, -22⟩, 1⟩]

/-- The linear (`ease: 'none'`) tween law `lerp(a, b, u) = a + (b - a) * u`. -/
def lerp (a b u : ℚ) : ℚ := a + (b - a) * u

/-- Component-wise linear interpolation of two vectors. -/
def lerpVec (a b : Vec3) (u : ℚ) : Vec3 :=
  ⟨lerp a.x b.x u, lerp a.y b.y u, lerp a.z b.z u⟩

/-- The pose produced by the tween pair from keyframe `a` to keyframe `b`
when the playhead sits at `p ∈ [a.scroll, b.scroll]`: local parameter
`u = (p - a.scroll) / (b.scroll - a.scroll)`, then component-wise lerp of
`pos` and `look`. -/
def segLerp (a b : Keyframe) (p : ℚ) : Pose :=
  let u := (p - a.scroll) / (b.scroll - a.scroll)
  ⟨lerpVec a.pos b.pos u, lerpVec a.look b.look u⟩

/-- Evaluation of the tween sequence starting at keyframe `k`: the first
segment whose end scroll value is ≥ the playhead is the active tween; past
the final tween the last keyframe's pose stands. -/
def interpSegs : Keyframe → List Keyframe → ℚ → Pose
  | k, [], _ => ⟨k.pos, k.look⟩
  | k, k2 :: rest, p => if p ≤ k2.scroll then segLerp k k2 p else interpSegs k2 rest p

/-- ScrollTrigger delivers `self.progress ∈ [0,1]`; the scrub clamps the
timeline playhead accordingly. -/
def clamp01 (p : ℚ) : ℚ := if p < 0 then 0 else if 1 < p then 1 else p

/-- The pose the timeline produces at scroll progress `p`: clamp the
playhead, then evaluate the piecewise-linear tween sequence.  An empty path
builds no tweens and leaves the camera at its default pose. -/
def interpolate : List Keyframe → ℚ → Pose
  | [], _ => ⟨⟨0, 0, 0⟩, ⟨0, 0, 0⟩⟩
  | k :: rest, p => interpSegs k rest (clamp01 p)

/-- Strictly increasing `scroll` values on consecutive keyframes. -/
def strictIncrB : List Keyframe → Bool
  | a :: b :: rest => (decide (a.scroll < b.scroll)) && strictIncrB (b :: rest)
  | _ => true

/-- Keyframe at index `i` (default keyframe out of range). -/
def kfAt : List Keyframe → ℕ → Keyframe
  | [], _ => default
  | k :: _, 0 => k
  | _ :: rest, n + 1 => kfAt rest n

/-- The 3-keyframe scenario path from the spec's testable-properties section. -/
def scenarioPath : List Keyframe :=
  [⟨⟨0, 1.6, 12⟩, ⟨0, 1.6, 0⟩, 0⟩,
   ⟨⟨0, 1.6, 6⟩, ⟨0, 1.6, 0⟩, 0.15⟩,
   ⟨⟨-4, 1.6, -2⟩, ⟨-8, 1.6, -2⟩, 0.35⟩]

/-- Room-name selection from the ScrollTrigger `onUpdate` callback
(App.tsx lines 266–270): fixed thresholds 0.2, 0.4, 0.6, 0.8. -/
def roomLabel (p : ℚ) : String :=
  if p < 0.2 then ROOM_NAMES.getD 0 ""
  else if p < 0.4 then ROOM_NAMES.getD 1 ""
  else if p < 0.6 then ROOM_NAMES.getD 2 ""
  else if p < 0.8 then ROOM_NAMES.getD 3 ""
  else ROOM_NAMES.getD 4 ""

/-- The scroll-derived observable state: `scrollProgress` and `currentRoom`
React state plus the camera pose written by the scrubbed timeline. -/
structure ScrollState where
  scrollProgress : ℚ
  currentRoom : String
  cameraPose : Pose
deriving DecidableEq

/-- The observable effect of one ScrollTrigger update at progress `p`:
`setScrollProgress(p)`, the room-name threshold selection, and the scrubbed
timeline's camera pose.  The handler reads nothing from the previous state. -/
def onUpdate (_s : ScrollState) (p : ℚ) : ScrollState :=
  ⟨p, roomLabel p, interpolate CAMERA_PATH p⟩

/-- The perspective camera's aspect field together with the aspect currently
baked into its projection matrix. -/
structure CameraProjection where
  aspect : ℚ
  projectionAspect : ℚ
deriving DecidableEq

/-- The renderer's output surface size. -/
structure RendererSize where
  width : ℚ
  height : ℚ
deriving DecidableEq

/-- Camera projection, renderer surface and scroll-derived state together. -/
structure AppView where
  camera : CameraProjection
  renderer : RendererSize
  scroll : ScrollState
deriving DecidableEq

/-- Models `camera.updateProjectionMatrix()`: bakes the current aspect into the
projection transform. -/
def updateProjectionMatrix (c : CameraProjection) : CameraProjection :=
  { c with projectionAspect := c.aspect }

/-- Models `handleResize` (App.tsx lines 314–318): set `camera.aspect` from the
window size, update the projection matrix, resize the renderer; the scroll
state is untouched. -/
def handleResize (s : AppView) (w h : ℚ) : AppView :=
  { s with
    camera := updateProjectionMatrix { s.camera with aspect := w / h },
    renderer := ⟨w, h⟩ }

/-- One `tl.to(...)` step of the timeline: placed at `prev.scroll`, with
duration `point.scroll - prev.scroll`, tweening towards `point`'s pos/look. -/
structure Tween where
  startAt : ℚ
  duration : ℚ
  toPos : Vec3
  toLook : Vec3
deriving DecidableEq

/-- The timeline construction of the `CAMERA_PATH.forEach` loop (App.tsx lines 277–308):
index 0 only places the camera; each later keyframe appends a tween from its
predecessor.  The construction is total — the source has no validation of the
path whatsoever. -/
def buildTimeline : List Keyframe → List Tween
  | prev :: point :: rest =>
      ⟨prev.scroll, point.scroll - prev.scroll, point.pos, point.look⟩
        :: buildTimeline (point :: rest)
  | _ => []

/-- A one-keyframe path (fewer than two keyframes — invalid per the spec). -/
def soloPath : List Keyframe := [⟨⟨1, 2, 3⟩, ⟨4, 5, 6⟩, 0⟩]

/-- A two-keyframe path with duplicate `t` values (invalid per the spec). -/
def dupPath : List Keyframe :=
  [⟨⟨0, 0, 0⟩, ⟨0, 0, 1⟩, 0.3⟩, ⟨⟨2, 2, 2⟩, ⟨2, 2, 3⟩, 0.3⟩]

/-- A two-keyframe path with decreasing `t` values (invalid per the spec). -/
def nonMonoPath : List Keyframe :=
  [⟨⟨0, 0, 0⟩, ⟨0, 0, 1⟩, 0.8⟩, ⟨⟨2, 2, 2⟩, ⟨2, 2, 3⟩, 0.2⟩]

/-- Geometry constructors used by the scene builder. -/
inductive Geom where
  | plane (w h : ℚ)
  | box (w h d : ℚ)
  | cylinder (rTop rBot h : ℚ) (radialSegments : ℕ)
  | cone (radius h : ℚ) (radialSegments heightSegments : ℕ) (openEnded : Bool)
deriving DecidableEq

/-- Parameters of a `MeshStandardMaterial` (three.js defaults: roughness 1,
metalness 0, opaque, single-sided). -/
structure MatParams where
  color : ℕ
  roughness : ℚ
  metalness : ℚ
  transparent : Bool
  opacity : ℚ
  doubleSide : Bool
deriving DecidableEq

/-- A standard material with every parameter at its default. -/
def baseMat (c : ℕ) : MatParams := ⟨c, 1, 0, false, 1, false⟩

/-- Scene-graph node: mesh, point light, ambient light, or transform group.
Rotation components are recorded in units of π (the source only rotates by
multiples of π/2). -/
inductive Node where
  | mesh (geo : Geom) (mat : MatParams) (pos rot : Vec3) (castShadow receiveShadow : Bool)
  | point (color : ℕ) (intensity distance : ℚ) (pos : Vec3)
  | ambient (color : ℕ) (intensity : ℚ)
  | group (pos : Vec3) (children : List Node)

/-- Models `group.add(child)` (appends to the children list). -/
def Node.add : Node → Node → Node
  | .group p cs, c => .group p (cs ++ [c])
  | n, _ => n

/-- The `createWall` helper inside `createRoom`: a shadowing plane at the
given position, rotated about y. -/
def createWall (wallColor : ℕ) (w h px py pz ry : ℚ) : Node :=
  Node.mesh (Geom.plane w h) { baseMat wallColor with roughness := 0.5 }
    ⟨px, py, pz⟩ ⟨0, ry, 0⟩ true true

/-- Models `createRoom(x, z, width, depth, height, wallColor, floorColor)`
(App.tsx lines 87–134): floor, ceiling, back/left/right walls and a gold
baseboard, grouped at position `(x, 0, z)`. -/
def createRoom (x z width depth height : ℚ) (wallColor floorColor : ℕ) : Node :=
  Node.group ⟨x, 0, z⟩
    [Node.mesh (Geom.plane width depth)
       { baseMat floorColor with roughness := 0.3, metalness := 0.1 }
       ⟨0, 0, 0⟩ ⟨-(1/2 : ℚ), 0, 0⟩ false true,
     Node.mesh (Geom.plane width depth) { baseMat 0xdddddd with roughness := 0.8 }
       ⟨0, height, 0⟩ ⟨1/2, 0, 0⟩ false false,
     createWall wallColor width height 0 (height / 2) (-depth / 2) 0,
     createWall wallColor depth height (-width / 2) (height / 2) 0 (1/2),
     createWall wallColor depth height (width / 2) (height / 2) 0 (-(1/2 : ℚ)),
     Node.mesh (Geom.box width 0.1 0.05)
       { baseMat 0xc9a96e with metalness := 0.8, roughness := 0.2 }
       ⟨0, 0.05, -depth / 2 + 0.025⟩ ⟨0, 0, 0⟩ false false]

/-- Models `createBox(w, h, d, color, x, y, z)` (App.tsx lines 137–145). -/
def createBox (w h d : ℚ) (color : ℕ) (x y z : ℚ) : Node :=
  Node.mesh (Geom.box w h d) { baseMat color with roughness := 0.6 }
    ⟨x, y, z⟩ ⟨0, 0, 0⟩ true true

/-- Models `createLamp(x, y, z)` (App.tsx lines 147–169): gold stand, translucent
shade and a warm point light, grouped at `(x, y, z)`. -/
def createLamp (x y z : ℚ) : Node :=
  Node.group ⟨x, y, z⟩
    [Node.mesh (Geom.cylinder 0.05 0.1 1.5 16)
       { baseMat 0xc9a96e with metalness := 0.8, roughness := 0.2 }
       ⟨0, 0.75, 0⟩ ⟨0, 0, 0⟩ false false,
     Node.mesh (Geom.cone 0.3 0.4 32 1 true)
       { baseMat 0xffffff with transparent := true, opacity := 0.9, doubleSide := true }
       ⟨0, 1.6, 0⟩ ⟨0, 0, 0⟩ false false,
     Node.point 0xffaa00 0.8 5 ⟨0, 1.5, 0⟩]

/-- Room 1: Foyer, with console table, mirror and pendant light
(App.tsx lines 172–187). -/
def foyer : Node :=
  (((createRoom 0 6 4 12 3.5 0xf5f5f5 0xe0e0e0).add
      (createBox 1.5 0.8 0.4 0x8d6e63 1 0.4 (-2))).add
    (Node.mesh (Geom.plane 1.2 2)
      { baseMat 0xffffff with metalness := 0.9, roughness := 0.1 }
      ⟨1, 2, -1.75⟩ ⟨0, 0, 0⟩ false false)).add
    (Node.point 0xffaa00 0.8 10 ⟨0, 3, 0⟩)

/-- Room 2: Living Room, with sofa, L-section, coffee table, TV unit and
lamp (App.tsx lines 189–200). -/
def livingRoom : Node :=
  (((((createRoom (-4) (-2) 8 8 3.5 0xffffff 0xd9d9d9).add
        (createBox 3 0.6 1 0xaaddcc (-1) 0.3 (-2))).add
       (createBox 1 0.6 2 0xaaddcc 1 0.3 (-1.5))).add
      (createBox 1.2 0.4 0.8 0xf5f5f5 (-0.5) 0.2 (-0.5))).add
     (createBox 3 2 0.1 0xeeeeee (-1) 1.5 3.9)).add
    (createLamp (-3) 0 (-3))

/-- Room 3: Bedroom, with mattress, headboard, two side tables and a lamp
light (App.tsx lines 202–214). -/
def bedroom : Node :=
  (((((createRoom (-8) (-8) 7 7 3.2 0xf0f8ff 0xd2b48c).add
        (createBox 2 0.5 2.5 0xffffff 0 0.25 0)).add
       (createBox 2.2 1 0.2 0x8b4513 0 0.5 (-1.3))).add
      (createBox 0.5 0.5 0.5 0xffffff (-1.5) 0.25 (-1))).add
     (createBox 0.5 0.5 0.5 0xffffff 1.5 0.25 (-1))).add
    (Node.point 0xffaa55 0.8 8 ⟨-1.5, 1, -1⟩)

/-- Room 4: Kitchen, with island, counters, cabinets and a bright light
(App.tsx lines 216–228). -/
def kitchen : Node :=
  ((((createRoom (-4) (-14) 8 8 3.5 0xffffff 0xcccccc).add
       (createBox 2.5 0.9 1.2 0xffffff 0 0.45 0)).add
      (createBox 8 0.9 0.8 0xe0e0e0 0 0.45 (-3.6))).add
     (createBox 8 0.8 0.4 0xffffff 0 2.5 (-3.6))).add
    (Node.point 0xffffff 1.0 12 ⟨0, 3, 0⟩)

/-- Room 5: Study, with desk, legs, bookshelf and lamp
(App.tsx lines 230–241). -/
def study : Node :=
  (((((createRoom (-4) (-22) 6 6 3.2 0xf5f5dc 0xc0c0c0).add
        (createBox 2 0.05 0.8 0xcd853f 0 0.75 (-1))).add
       (createBox 0.05 0.75 0.05 0x333333 (-0.9) 0.375 (-1))).add
      (createBox 0.05 0.75 0.05 0x333333 0.9 0.375 (-1))).add
     (createBox 3 2.5 0.4 0xffffff (-2.5) 1.25 0)).add
    (createLamp 0.8 0.75 (-1))

/-- The full apartment scene exactly as assembled at startup: the five rooms
in `scene.add` order, then the global ambient light (App.tsx lines 171–245).
The builder takes no runtime input at all. -/
def buildScene : Node :=
  Node.group ⟨0, 0, 0⟩
    [foyer, livingRoom, bedroom, kitchen, study, Node.ambient 0xffffff 0.6]

mutual

/-- Number of scene-graph nodes in a subtree. -/
def countNodes : Node → ℕ
  | .group _ cs => 1 + countList cs
  | _ => 1

/-- Number of scene-graph nodes in a forest. -/
def countList : List Node → ℕ
  | [] => 0
  | n :: ns => countNodes n + countList ns

end

mutual

/-- All (position, rotation) transforms in a subtree, in traversal order. -/
def nodeTransforms : Node → List (Vec3 × Vec3)
  | .mesh _ _ p r _ _ => [(p, r)]
  | .point _ _ _ p => [(p, ⟨0, 0, 0⟩)]
  | .ambient _ _ => []
  | .group p cs => (p, ⟨0, 0, 0⟩) :: listTransforms cs

/-- All (position, rotation) transforms in a forest, in traversal order. -/
def listTransforms : List Node → List (Vec3 × Vec3)
  | [] => []
  | n :: ns => nodeTransforms n ++ listTransforms ns

end

mutual

/-- All material parameter records in a subtree, in traversal order. -/
def nodeMaterials : Node → List MatParams
  | .mesh _ m _ _ _ _ => [m]
  | .group _ cs => listMaterials cs
  | _ => []

/-- All material parameter records in a forest, in traversal order. -/
def listMaterials : List Node → List MatParams
  | [] => []
  | n :: ns => nodeMaterials n ++ listMaterials ns

end

lemma kfAt_cons_zero (k : Keyframe) (rest : List Keyframe) : kfAt (k :: rest) 0 = k := rfl

lemma kfAt_cons_succ (k : Keyframe) (rest : List Keyframe) (n : ℕ) :
    kfAt (k :: rest) (n + 1) = kfAt rest n := rfl

lemma strictIncrB_cons_iff (a b : Keyframe) (l : List Keyframe) :
    strictIncrB (a :: b :: l) = true ↔ a.scroll < b.scroll ∧ strictIncrB (b :: l) = true := by
  simp [strictIncrB]

/-- Along a strictly increasing list, the head's scroll value is below every
later keyframe's scroll value. -/
lemma strictIncrB_head_lt (a : Keyframe) (l : List Keyframe)
    (h : strictIncrB (a :: l) = true) (j : ℕ) (hj : j < l.length) :
    a.scroll < (kfAt l j).scroll := by
  induction l generalizing a j with
  | nil => simp at hj
  | cons b l' ih =>
    rw [strictIncrB_cons_iff] at h
    cases j with
    | zero => simpa [kfAt_cons_zero] using h.1
    | succ m =>
      have hm : m < l'.length := by simpa using hj
      have hb := ih b h.2 m hm
      rw [kfAt_cons_succ]
      exact lt_trans h.1 hb

/-- At the left endpoint the local parameter is `u = 0`, so the segment
returns the left keyframe's pose exactly (this holds even for a degenerate
zero-length segment, since `0 / 0 = 0` in `ℚ`). -/
lemma segLerp_left (a b : Keyframe) : segLerp a b a.scroll = ⟨a.pos, a.look⟩ := by
  obtain ⟨⟨apx, apy, apz⟩, ⟨alx, aly, alz⟩, asr⟩ := a
  simp [segLerp, lerpVec, lerp]

/-- At the right endpoint of a non-degenerate segment the local parameter is
`u = 1`, so the segment returns the right keyframe's pose exactly. -/
lemma segLerp_right (a b : Keyframe) (h : a.scroll < b.scroll) :
    segLerp a b b.scroll = ⟨b.pos, b.look⟩ := by
  have hd : b.scroll - a.scroll ≠ 0 := sub_ne_zero.mpr (ne_of_gt h)
  obtain ⟨⟨apx, apy, apz⟩, ⟨alx, aly, alz⟩, asr⟩ := a
  obtain ⟨⟨bpx, bpy, bpz⟩, ⟨blx, bly, blz⟩, bsr⟩ := b
  simp only [segLerp, lerpVec, lerp] at *
  rw [div_self hd]
  simp [Pose.mk.injEq, Vec3.mk.injEq]

/-- Core correctness of the tween scan: when the playhead lies inside the
`i`-th segment of a strictly increasing keyframe list, the scan produces
exactly that segment's linear interpolation. -/
lemma interpSegs_eq_segLerp (rest : List Keyframe) :
    ∀ (k : Keyframe) (i : ℕ) (p : ℚ),
      strictIncrB (k :: rest) = true →
      i + 1 < (k :: rest).length →
      (kfAt (k :: rest) i).scroll ≤ p →
      p ≤ (kfAt (k :: rest) (i + 1)).scroll →
      interpSegs k rest p = segLerp (kfAt (k :: rest) i) (kfAt (k :: rest) (i + 1)) p := by
  induction rest with
  | nil =>
    intro k i p _ hlen _ _
    simp at hlen
  | cons k2 rest' ih =>
    intro k i p hinc hlen hlo hhi
    rw [strictIncrB_cons_iff] at hinc
    cases i with
    | zero =>
      rw [kfAt_cons_zero] at hlo
      rw [kfAt_cons_succ, kfAt_cons_zero] at hhi
      rw [kfAt_cons_zero, kfAt_cons_succ, kfAt_cons_zero]
      simp only [interpSegs, if_pos hhi]
    | succ j =>
      rw [kfAt_cons_succ] at hlo
      rw [kfAt_cons_succ] at hhi
      rw [kfAt_cons_succ, kfAt_cons_succ]
      have hjlen : j + 1 < (k2 :: rest').length := by
        simpa [Nat.succ_lt_succ_iff] using hlen
      by_cases hc : p ≤ k2.scroll
      · cases j with
        | zero =>
          rw [kfAt_cons_zero] at hlo
          have hp : p = k2.scroll := le_antisymm hc hlo
          subst hp
          rw [kfAt_cons_zero]
          simp only [interpSegs, if_pos le_rfl]
          rw [segLerp_right k k2 hinc.1, segLerp_left]
        | succ m =>
          exfalso
          rw [kfAt_cons_succ] at hlo
          have hm : m < rest'.length := by
            simp at hjlen
            omega
          have hlt := strictIncrB_head_lt k2 rest' hinc.2 m hm
          linarith
      · simp only [interpSegs, if_neg hc]
        exact ih k2 j p hinc.2 hjlen hlo hhi

/-- For `p ∈ [0,1]` the scrub clamp is the identity. -/
lemma clamp01_of_mem (p : ℚ) (h0 : 0 ≤ p) (h1 : p ≤ 1) : clamp01 p = p := by
  simp [clamp01, not_lt.mpr h0, not_lt.mpr h1]

/-- Segment-level specification of `interpolate` on a non-degenerate path. -/
lemma interpolate_eq_segLerp (path : List Keyframe) (i : ℕ) (p : ℚ)
    (hinc : strictIncrB path = true)
    (hlen : i + 1 < path.length)
    (hlo : (kfAt path i).scroll ≤ p)
    (hhi : p ≤ (kfAt path (i + 1)).scroll)
    (h0 : 0 ≤ p) (h1 : p ≤ 1) :
    interpolate path p = segLerp (kfAt path i) (kfAt path (i + 1)) p := by
  cases path with
  | nil => simp at hlen
  | cons k rest =>
    show interpSegs k rest (clamp01 p) = _
    rw [clamp01_of_mem p h0 h1]
    exact interpSegs_eq_segLerp rest k i p hinc hlen hlo hhi

lemma roomNames_get0 : ROOM_NAMES.getD 0 "" = "The Grand Foyer" := rfl

lemma roomNames_get1 : ROOM_NAMES.getD 1 "" = "The Living Room" := rfl

lemma roomNames_get2 : ROOM_NAMES.getD 2 "" = "The Master Suite" := rfl

lemma roomNames_get3 : ROOM_NAMES.getD 3 "" = "The Modular Kitchen" := rfl

lemma roomNames_get4 : ROOM_NAMES.getD 4 "" = "The Private Study" := rfl

/-- Whatever the progress, the selected label is one of the five room names. -/
lemma roomLabel_mem (p : ℚ) : roomLabel p ∈ ROOM_NAMES := by
  unfold roomLabel
  split_ifs <;>
    simp only [roomNames_get0, roomNames_get1, roomNames_get2, roomNames_get3,
      roomNames_get4, ROOM_NAMES, List.mem_cons, List.mem_singleton] <;> tauto

/-- The timeline always carries one tween pair per consecutive keyframe
pair, whatever the path. -/
lemma buildTimeline_length (path : List Keyframe) :
    (buildTimeline path).length = path.length - 1 := by
  induction path with
  | nil => rfl
  | cons k rest ih =>
    cases rest with
    | nil => rfl
    | cons k2 rest' =>
      simp only [buildTimeline, List.length_cons] at ih ⊢
      omega

/-- If every keyframe of a non-empty list keeps both y-components at `c`,
so does the scanned pose, for any playhead value. -/
lemma interpSegs_const_y (c : ℚ) (rest : List Keyframe) :
    ∀ (k : Keyframe) (p : ℚ),
      (∀ kf ∈ k :: rest, kf.pos.y = c ∧ kf.look.y = c) →
      (interpSegs k rest p).position.y = c ∧ (interpSegs k rest p).lookAt.y = c := by
  induction rest with
  | nil =>
    intro k p h
    exact ⟨(h k (by simp)).1, (h k (by simp)).2⟩
  | cons k2 rest' ih =>
    intro k p h
    have hk := h k (by simp)
    have hk2 := h k2 (by simp)
    by_cases hc : p ≤ k2.scroll
    · simp only [interpSegs, if_pos hc, segLerp, lerpVec, lerp]
      constructor <;> simp [hk.1, hk.2, hk2.1, hk2.2]
    · simp only [interpSegs, if_neg hc]
      exact ih k2 p (fun kf hkf => h kf (by simp [hkf]))

/-- Constant y-components along the path carry over to the interpolated
pose, at every progress value. -/
lemma interpolate_const_y (c : ℚ) (k : Keyframe) (rest : List Keyframe) (p : ℚ)
    (h : ∀ kf ∈ k :: rest, kf.pos.y = c ∧ kf.look.y = c) :
    (interpolate (k :: rest) p).position.y = c ∧
      (interpolate (k :: rest) p).lookAt.y = c :=
  interpSegs_const_y c rest k (clamp01 p) h

/-- Claim C1: on any camera path with strictly increasing keyframe scroll
values, interpolating at a progress `p` inside segment `i` yields the
component-wise linear interpolation of the two bounding keyframes with local
parameter `u = (p - t_i) / (t_(i+1) - t_i)`; concretely, on the spec's
3-keyframe scenario path (t = 0, 0.15, 0.35), progress 0.075 yields position
(0, 1.6, 9) and lookAt (0, 1.6, 0), and progress 0.25 yields position
(-2, 1.6, 2). -/
theorem camera_interp_segment_lerp :
    (∀ (path : List Keyframe) (i : ℕ) (p : ℚ),
        strictIncrB path = true → i + 1 < path.length →
        (kfAt path i).scroll ≤ p → p ≤ (kfAt path (i + 1)).scroll →
        0 ≤ p → p ≤ 1 →
        interpolate path p = segLerp (kfAt path i) (kfAt path (i + 1)) p) ∧
    interpolate scenarioPath 0.075 = ⟨⟨0, 1.6, 9⟩, ⟨0, 1.6, 0⟩⟩ ∧
    (interpolate scenarioPath 0.25).position = ⟨-2, 1.6, 2⟩ := by
  refine ⟨interpolate_eq_segLerp, ?_, ?_⟩ <;>
    norm_num [interpolate, scenarioPath, interpSegs, clamp01, segLerp, lerpVec, lerp]

/-- Witness for C1: the general statement applied at the first segment of
the scenario path with progress 0.075, all hypotheses discharged. -/
theorem camera_interp_segment_lerp_witness :
    interpolate scenarioPath 0.075 =
      segLerp (kfAt scenarioPath 0) (kfAt scenarioPath 1) 0.075 :=
  camera_interp_segment_lerp.1 scenarioPath 0 0.075
    (by norm_num [strictIncrB, scenarioPath])
    (by norm_num [scenarioPath])
    (by show (0 : ℚ) ≤ 0.075; norm_num)
    (by show (0.075 : ℚ) ≤ 0.15; norm_num)
    (by norm_num)
    (by norm_num)

/-- Claim C2: interpolating the program's camera path at any keyframe's
scroll value returns exactly that keyframe's pose, and at any segment
boundary the pose of the left segment at `u = 1` equals the pose of the
right segment at `u = 0` — the interpolation has no jump at boundaries. -/
theorem camera_interp_boundary_exact_continuous :
    (∀ kf ∈ CAMERA_PATH, interpolate CAMERA_PATH kf.scroll = ⟨kf.pos, kf.look⟩) ∧
    (∀ a b c : Keyframe, a.scroll < b.scroll →
        segLerp a b b.scroll = segLerp b c b.scroll) := by
  constructor
  · intro kf hkf
    fin_cases hkf <;>
      norm_num [interpolate, CAMERA_PATH, interpSegs, clamp01, segLerp, lerpVec, lerp]
  · intro a b c hab
    rw [segLerp_right a b hab, segLerp_left]

/-- Witness for C2: boundary exactness at the t = 0.15 keyframe of
`CAMERA_PATH`. -/
theorem camera_interp_boundary_exact_witness :
    interpolate CAMERA_PATH 0.15 = ⟨⟨0, 1.6, 6⟩, ⟨0, 1.6, 0⟩⟩ := by
  have h := camera_interp_boundary_exact_continuous.1
    ⟨⟨0, 1.6, 6⟩, ⟨0, 1.6, 0⟩, 0.15⟩ (by simp [CAMERA_PATH])
  simpa using h

/-- Claim C3: for progress in [0,1] the five fixed thresholds 0.2, 0.4,
0.6, 0.8 partition [0,1] into one bucket per room name, and exactly one
room name is selected. -/
theorem room_label_thresholds (p : ℚ) (_h0 : 0 ≤ p) (_h1 : p ≤ 1) :
    (p < 0.2 → roomLabel p = "The Grand Foyer") ∧
    (0.2 ≤ p → p < 0.4 → roomLabel p = "The Living Room") ∧
    (0.4 ≤ p → p < 0.6 → roomLabel p = "The Master Suite") ∧
    (0.6 ≤ p → p < 0.8 → roomLabel p = "The Modular Kitchen") ∧
    (0.8 ≤ p → roomLabel p = "The Private Study") ∧
    (∃! name, name ∈ ROOM_NAMES ∧ roomLabel p = name) := by
  refine ⟨?_, ?_, ?_, ?_, ?_, ?_⟩
  · intro h
    rw [roomLabel, if_pos h, roomNames_get0]
  · intro hl hu
    rw [roomLabel, if_neg (by linarith), if_pos hu, roomNames_get1]
  · intro hl hu
    rw [roomLabel, if_neg (by linarith), if_neg (by linarith), if_pos hu, roomNames_get2]
  · intro hl hu
    rw [roomLabel, if_neg (by linarith), if_neg (by linarith), if_neg (by linarith),
      if_pos hu, roomNames_get3]
  · intro hl
    rw [roomLabel, if_neg (by linarith), if_neg (by linarith), if_neg (by linarith),
      if_neg (by linarith), roomNames_get4]
  · exact ⟨roomLabel p, ⟨roomLabel_mem p, rfl⟩, fun y hy => hy.2.symm⟩

/-- Witness for C3: progress 0.5 selects the third room name. -/
theorem room_label_thresholds_witness : roomLabel 0.5 = "The Master Suite" :=
  (room_label_thresholds 0.5 (by norm_num) (by norm_num)).2.2.1
    (by norm_num) (by norm_num)

/-- Claim C4: out-of-range progress is clamped, never rejected — progress
-0.5 gives the pose of progress 0, progress 1.5 gives the pose of progress
1, and progress exactly 1 resolves to the last segment (the last keyframe's
pose at `u = 1`), not out-of-bounds. -/
theorem camera_interp_clamped :
    interpolate CAMERA_PATH (-0.5) = interpolate CAMERA_PATH 0 ∧
    interpolate CAMERA_PATH 1.5 = interpolate CAMERA_PATH 1 ∧
    interpolate CAMERA_PATH 1 = segLerp (kfAt CAMERA_PATH 8) (kfAt CAMERA_PATH 9) 1 := by
  rw [show kfAt CAMERA_PATH 8 = ⟨⟨-4, 1.6, -18⟩, ⟨-4, 1.6, -22⟩, 0.85⟩ from rfl,
    show kfAt CAMERA_PATH 9 = ⟨⟨-4, 1.6, -22⟩, ⟨0, 1.6, -22⟩, 1⟩ from rfl]
  refine ⟨?_, ?_, ?_⟩ <;>
    norm_num [interpolate, CAMERA_PATH, interpSegs, clamp01, segLerp, lerpVec, lerp]

/-- Claim C5 counterexample: nothing in the source detects an invalid
camera path.  The timeline construction is total and succeeds on a
one-keyframe path (empty timeline), on a duplicate-`t` path (a zero-duration
tween) and on a decreasing-`t` path (a negative-duration tween); no
configuration error exists anywhere in the program, so construction cannot
"fail with a configuration error" as the claim states. -/
theorem invalid_path_construction_succeeds :
    buildTimeline soloPath = [] ∧
    buildTimeline dupPath = [⟨0.3, 0, ⟨2, 2, 2⟩, ⟨2, 2, 3⟩⟩] ∧
    buildTimeline nonMonoPath = [⟨0.8, -0.6, ⟨2, 2, 2⟩, ⟨2, 2, 3⟩⟩] := by
  refine ⟨rfl, ?_, ?_⟩ <;>
    norm_num [buildTimeline, dupPath, nonMonoPath, soloPath, Tween.mk.injEq]

/-- Claim C5 (amended): invalid camera paths are not detected at
construction time; construction is total (always one tween per consecutive
keyframe pair, never an error) and interpolation silently degrades — a
single-keyframe path pins the camera to that keyframe for every progress,
and a duplicate-`t` path snaps past the zero-length segment. -/
theorem invalid_path_silent_degradation :
    (∀ path : List Keyframe, (buildTimeline path).length = path.length - 1) ∧
    (∀ p : ℚ, interpolate soloPath p = ⟨⟨1, 2, 3⟩, ⟨4, 5, 6⟩⟩) ∧
    interpolate dupPath 0.5 = ⟨⟨2, 2, 2⟩, ⟨2, 2, 3⟩⟩ := by
  refine ⟨buildTimeline_length, fun p => rfl, ?_⟩
  norm_num [interpolate, dupPath, interpSegs, clamp01]

/-- Claim C6: the program's `CAMERA_PATH` satisfies the CameraPath
invariant — at least two keyframes, scroll values strictly increasing across
the whole sequence (hence pairwise distinct), first keyframe at t = 0 and
last at t = 1. -/
theorem camera_path_invariant :
    2 ≤ CAMERA_PATH.length ∧
    List.Pairwise (fun a b => a.scroll < b.scroll) CAMERA_PATH ∧
    List.Pairwise (fun a b => a.scroll ≠ b.scroll) CAMERA_PATH ∧
    (kfAt CAMERA_PATH 0).scroll = 0 ∧
    (kfAt CAMERA_PATH (CAMERA_PATH.length - 1)).scroll = 1 := by
  have hpair : List.Pairwise (fun a b => a.scroll < b.scroll) CAMERA_PATH := by
    simp only [CAMERA_PATH, List.pairwise_cons, List.mem_cons, List.mem_singleton,
      List.not_mem_nil]
    norm_num
  refine ⟨by norm_num [CAMERA_PATH], hpair, ?_, rfl, rfl⟩
  exact hpair.imp fun h => ne_of_lt h

/-- Claim C7: scroll updates are idempotent — delivering the same progress
twice yields the same state as delivering it once, and the resulting pose
and label depend on the progress alone, not on any previous state. -/
theorem scroll_update_idempotent :
    (∀ (s : ScrollState) (p : ℚ), onUpdate (onUpdate s p) p = onUpdate s p) ∧
    (∀ (s t : ScrollState) (p : ℚ), onUpdate s p = onUpdate t p) :=
  ⟨fun _ _ => rfl, fun _ _ _ => rfl⟩

/-- Claim C8: the resize handler recomputes the camera aspect from the new
viewport, propagates it into the projection transform, resizes the output
surface, and leaves the whole scroll-derived state (progress, label, pose)
unchanged; concretely, 1920×1080 yields projection aspect 16/9 and 800×600
yields 4/3. -/
theorem resize_orthogonal_to_scroll :
    (∀ (s : AppView) (w h : ℚ),
        (handleResize s w h).camera.aspect = w / h ∧
        (handleResize s w h).camera.projectionAspect = w / h ∧
        (handleResize s w h).renderer = ⟨w, h⟩ ∧
        (handleResize s w h).scroll = s.scroll) ∧
    (∀ s : AppView,
        (handleResize s 1920 1080).camera.projectionAspect = 16 / 9 ∧
        (handleResize s 800 600).camera.projectionAspect = 4 / 3) := by
  constructor
  · intro s w h
    exact ⟨rfl, rfl, rfl, rfl⟩
  · intro s
    constructor <;> norm_num [handleResize, updateProjectionMatrix]

/-- Claim C9: scene construction is deterministic — the builder consumes no
runtime input, so two builds produce structurally identical graphs: equal as
trees, with the same node count (65 nodes), the same transforms and the same
material parameters. -/
theorem scene_build_deterministic :
    buildScene = buildScene ∧
    countNodes buildScene = countNodes buildScene ∧
    nodeTransforms buildScene = nodeTransforms buildScene ∧
    nodeMaterials buildScene = nodeMaterials buildScene ∧
    countNodes buildScene = 65 :=
  ⟨rfl, rfl, rfl, rfl, rfl⟩

/-- Claim C10: every keyframe of the camera path keeps `pos.y` and `look.y`
at the 1.6 eye height, and consequently the interpolated pose has
y-component 1.6 in both position and lookAt at every progress in [0,1]. -/
theorem camera_eye_height_constant :
    (∀ kf ∈ CAMERA_PATH, kf.pos.y = 1.6 ∧ kf.look.y = 1.6) ∧
    (∀ p : ℚ, 0 ≤ p → p ≤ 1 →
        (interpolate CAMERA_PATH p).position.y = 1.6 ∧
        (interpolate CAMERA_PATH p).lookAt.y = 1.6) := by
  have hall : ∀ kf ∈ CAMERA_PATH, kf.pos.y = 1.6 ∧ kf.look.y = 1.6 := by
    intro kf hkf
    fin_cases hkf <;> norm_num
  exact ⟨hall, fun p _ _ => interpolate_const_y 1.6 _ _ p hall⟩

/-- Witness for C10: the interpolated pose at progress 0.5 sits at eye
height. -/
theorem camera_eye_height_constant_witness :
    (interpolate CAMERA_PATH 0.5).position.y = 1.6 :=
  (camera_eye_height_constant.2 0.5 (by norm_num) (by norm_num)).1
